import Mathlib

/-!
Shallow embedding of the browser session controller of speak_term:
the WebTerminal class in src/static/app.js (reconnect-dialog variant)
and in src/unnamed/part_000 (auto-retry variant). The class wires an
xterm display widget to a WebSocket transport; its handlers are
embedded as pure functions from an explicit state to a new state plus
a list of observable effects on the external collaborators.
-/

/-- Values of WebSocket.readyState as the handlers observe them
(WebSocket.CONNECTING, OPEN, CLOSING, CLOSED). -/
inductive ReadyState
  | CONNECTING
  | OPEN
  | CLOSING
  | CLOSED
  deriving DecidableEq

/-- The status badge rendered by updateConnectionStatus (app.js lines
186-198): either the badge-success "Connected" form or the badge-error
"Disconnected" form. -/
inductive BadgeState
  | success
  | error
  deriving DecidableEq

/-- Observable effects the handlers perform on the external
collaborators (websocket, terminal widget, modal dialog, console,
browser event, timer queue). -/
inductive Out
  | send (data : String) -- websocket.send(data)
  | write (s : String) -- terminal.write(s)
  | writeln (s : String) -- terminal.writeln(s)
  | termClear -- terminal.clear()
  | newWebSocket -- new WebSocket(wsUrl)
  | closeWs -- websocket.close()
  | modalShow -- modal.showModal()
  | modalClose -- modal.close()
  | logConsole (s : String) -- console.log / console.error
  | preventDefault -- e.preventDefault()
  | scheduleReconnect (ms : Nat) -- setTimeout of connectWebSocket
  deriving DecidableEq

/-- Mutable state of the WebTerminal instance of app.js together with
the DOM facts the handlers read and write: websocket holds the
readyState of the socket object currently assigned to this.websocket
(none before the first assignment), connected is the boolean field of
the class, badge is the rendered status indicator (none before the
first updateConnectionStatus call), reconnectHandlers counts the click
listeners currently attached to the reconnect button, and modalOpen
tracks the reconnect dialog. -/
structure St where
  websocket : Option ReadyState
  connected : Bool
  badge : Option BadgeState
  reconnectHandlers : Nat
  modalOpen : Bool
  deriving DecidableEq

/-- updateConnectionStatus (app.js lines 186-198): renders the badge
classes and text from the connected flag. -/
def updateConnectionStatus (s : St) : St :=
  { s with badge := some (if s.connected then BadgeState.success else BadgeState.error) }

/-- connectWebSocket (app.js lines 72-104): assigns a fresh WebSocket
object (readyState CONNECTING) to this.websocket and installs the four
lifecycle handlers; the handlers themselves are modelled by the step
function below. The previous socket object, if any, is overwritten
without a close call. -/
def connectWebSocket (s : St) : St × List Out :=
  ({ s with websocket := some ReadyState.CONNECTING }, [Out.newWebSocket])

/-- The global regex replace in websocket.onmessage (app.js line 88 and
part_000 line 83): event.data.replace with pattern a single line feed
and replacement carriage-return line-feed, scanning left to right. -/
def replaceLF : List Char → List Char
  | [] => []
  | c :: cs => if c = '\n' then '\r' :: '\n' :: replaceLF cs else c :: replaceLF cs

/-- String wrapper of replaceLF, as onmessage applies the replace to the
whole message string. -/
def replaceLFStr (s : String) : String := String.mk (replaceLF s.data)

/-- websocket.onopen (app.js lines 78-84): the browser has moved the
socket to OPEN; the handler clears the display, prints a banner, sets
connected and re-renders the badge. -/
def onWsOpen (s : St) : St × List Out :=
  (updateConnectionStatus { s with websocket := some ReadyState.OPEN, connected := true },
   [Out.termClear, Out.writeln "Connected to terminal server", Out.logConsole "WebSocket connected"])

/-- websocket.onmessage (app.js lines 86-90 and part_000 lines 81-85):
every line feed in the chunk is rewritten to carriage-return line-feed
before the chunk is written to the terminal. -/
def onWsMessage (s : St) (chunk : String) : St × List Out :=
  (s, [Out.write (replaceLFStr chunk)])

/-- showReconnectDialog (app.js lines 259-275): cloneNode true produces
a copy of the reconnect button carrying none of its event listeners,
replaceChild swaps the copy in (so every previously attached click
handler is gone), exactly one new click listener is attached, and the
modal is shown. -/
def showReconnectDialog (s : St) : St × List Out :=
  ({ s with reconnectHandlers := 1, modalOpen := true }, [Out.modalShow])

/-- websocket.onclose (app.js lines 92-98): prints a notice, clears
connected, re-renders the badge and surfaces the reconnect dialog. -/
def onWsClose (s : St) : St × List Out :=
  let s1 := updateConnectionStatus { s with websocket := some ReadyState.CLOSED, connected := false }
  let r := showReconnectDialog s1
  (r.1, Out.writeln "\r\n\nConnection closed." :: Out.logConsole "WebSocket closed" :: r.2)

/-- websocket.onerror (app.js lines 100-103): writes an error line to
the terminal and logs the error; it reads and writes no field of the
session state and does not touch the badge. -/
def onWsError (s : St) : St × List Out :=
  (s, [Out.writeln "\r\n\nConnection error occurred", Out.logConsole "WebSocket error:"])

/-- terminal.onData (app.js lines 62-66 and part_000 lines 59-63): user
keystrokes are sent on the websocket only when one has been assigned
and its readyState is OPEN; otherwise the handler does nothing at all,
keeping no buffer. -/
def onData (s : St) (data : String) : St × List Out :=
  if s.websocket = some ReadyState.OPEN then (s, [Out.send data]) else (s, [])

/-- The interrupt control byte 0x03 sent by sendKeyboardInterrupt. -/
def interruptByte : Char := Char.ofNat 3

/-- sendKeyboardInterrupt (app.js lines 174-178): sends the one-byte
string 0x03 when the websocket is assigned and OPEN; no-op otherwise. -/
def sendKeyboardInterrupt (s : St) : St × List Out :=
  if s.websocket = some ReadyState.OPEN then (s, [Out.send (String.mk [interruptByte])])
  else (s, [])

/-- The fields of the DOM keyboard event the keydown listener reads. -/
structure KeyEvent where
  ctrlKey : Bool
  key : String
  deriving DecidableEq

/-- document keydown listener (app.js lines 166-171): on Ctrl plus the
letter c it calls preventDefault and then sendKeyboardInterrupt; every
other key is left to the browser. -/
def onKeydown (s : St) (e : KeyEvent) : St × List Out :=
  if e.ctrlKey ∧ e.key = "c" then
    let r := sendKeyboardInterrupt s
    (r.1, Out.preventDefault :: r.2)
  else (s, [])

/-- The click listener attached to the reconnect button (app.js lines
268-272): closes the modal dialog, writes a notice, and calls
connectWebSocket again. The stale websocket object is only overwritten
by that call, never closed. -/
def reconnectClickHandler (s : St) : St × List Out :=
  let r := connectWebSocket { s with modalOpen := false }
  (r.1, Out.modalClose :: Out.writeln "Attempting to reconnect..." :: r.2)

/-- A click on the reconnect button fires every currently attached
click listener once, in order. -/
def runHandlers : Nat → St → St × List Out
  | 0, s => (s, [])
  | n + 1, s =>
    let r1 := reconnectClickHandler s
    let r2 := runHandlers n r1.1
    (r2.1, r1.2 ++ r2.2)

/-- A user click on the reconnect button: fires as many handlers as are
attached. -/
def onReconnectClick (s : St) : St × List Out := runHandlers s.reconnectHandlers s

/-- The events driving the session controller. -/
inductive Ev
  | wsOpen
  | wsMessage (chunk : String)
  | wsClose
  | wsError
  | userInput (data : String)
  | keydown (e : KeyEvent)
  | reconnectClick
  deriving DecidableEq

/-- One event-loop step of the app.js variant. -/
def step (s : St) : Ev → St × List Out
  | Ev.wsOpen => onWsOpen s
  | Ev.wsMessage chunk => onWsMessage s chunk
  | Ev.wsClose => onWsClose s
  | Ev.wsError => onWsError s
  | Ev.userInput d => onData s d
  | Ev.keydown e => onKeydown s e
  | Ev.reconnectClick => onReconnectClick s

/-- The state of the page before init runs: no websocket assigned,
badge as in the static markup, no reconnect listener, modal closed. -/
def initialSt : St :=
  { websocket := none, connected := false, badge := none,
    reconnectHandlers := 0, modalOpen := false }

/-- Run a sequence of events from a state, keeping the final state. -/
def run (s : St) : List Ev → St
  | [] => s
  | e :: rest => run (step s e).1 rest

/-- The JSON shape returned by the shell-metadata endpoint
/api/shell-info, as fetchShellInfo stores it. -/
structure ShellInfo where
  shell : String
  args : List String
  full_command : String
  deriving DecidableEq

/-- fetchShellInfo (app.js lines 106-128): the try block stores the
parsed response; any failure of the fetch call or of response.json()
lands in the catch block, which logs and substitutes the default
description bash with argument -i. -/
def fetchShellInfo (result : Except String ShellInfo) : ShellInfo :=
  match result with
  | Except.ok si => si
  | Except.error _ => { shell := "bash", args := ["-i"], full_command := "bash -i" }

/-- The theme object an xterm Terminal carries: background, foreground,
cursor, selection and the sixteen ANSI palette colours. The three
fields a theme change rewrites are JavaScript values that can hold
undefined (none), because the source can spread an undefined property
read over them; the remaining fields always hold the string of the
constructor literal. -/
structure TermTheme where
  background : Option String
  foreground : Option String
  cursor : Option String
  selection : String
  black : String
  red : String
  green : String
  yellow : String
  blue : String
  magenta : String
  cyan : String
  white : String
  brightBlack : String
  brightRed : String
  brightGreen : String
  brightYellow : String
  brightBlue : String
  brightMagenta : String
  brightCyan : String
  brightWhite : String
  deriving DecidableEq

/-- The theme literal passed to the Terminal constructor in
setupTerminal (app.js lines 24-45). -/
def initialTheme : TermTheme :=
  { background := some "#1e1e1e", foreground := some "#ffffff", cursor := some "#ffffff",
    selection := "rgba(255, 255, 255, 0.3)",
    black := "#000000", red := "#cd3131", green := "#0dbc79", yellow := "#e5e510",
    blue := "#2472c8", magenta := "#bc3fbc", cyan := "#11a8cd", white := "#e5e5e5",
    brightBlack := "#666666", brightRed := "#f14c4c", brightGreen := "#23d18b",
    brightYellow := "#f5f543", brightBlue := "#3b8eea", brightMagenta := "#d670d6",
    brightCyan := "#29b8db", brightWhite := "#e5e5e5" }

/-- The options object passed to the Terminal constructor in
setupTerminal (app.js lines 22-50). -/
structure TerminalOptions where
  cursorBlink : Bool
  theme : TermTheme
  fontSize : Nat
  fontFamily : String
  cols : Nat
  rows : Nat
  deriving DecidableEq

/-- setupTerminal (app.js lines 21-70): configures the display widget
with the constructor options of the source. -/
def setupTerminal : TerminalOptions :=
  { cursorBlink := true, theme := initialTheme, fontSize := 14,
    fontFamily := "\"Fira Code\", \"Cascadia Code\", \"Menlo\", \"Monaco\", monospace",
    cols := 80, rows := 24 }

/-- One entry of the themes table in updateTerminalTheme. -/
structure ThemeTriple where
  background : String
  foreground : String
  cursor : String
  deriving DecidableEq

/-- The themes table of updateTerminalTheme (app.js lines 226-247). -/
def themeTriples : List (String × ThemeTriple) :=
  [("dark", { background := "#1f2937", foreground := "#f9fafb", cursor := "#3b82f6" }),
   ("light", { background := "#ffffff", foreground := "#111827", cursor := "#3b82f6" }),
   ("cyberpunk", { background := "#0a0a0a", foreground := "#00ff00", cursor := "#ff00ff" }),
   ("synthwave", { background := "#1a1a2e", foreground := "#ff6b9d", cursor := "#00d2ff" })]

/-- The keys of the themes table, that is the own properties of the
themes object literal. -/
def knownThemeNames : List String := ["dark", "light", "cyberpunk", "synthwave"]

/-- The property names a plain object literal inherits from
Object.prototype: bracket access themes[name] at any of these finds a
truthy inherited value (a method, the Object constructor, or the
prototype object itself for __proto__) rather than undefined. -/
def protoNames : List String :=
  ["constructor", "hasOwnProperty", "isPrototypeOf", "propertyIsEnumerable",
   "toLocaleString", "toString", "valueOf", "__proto__",
   "__defineGetter__", "__defineSetter__", "__lookupGetter__", "__lookupSetter__"]

/-- A JavaScript value the expression themes[theme] || themes.dark can
evaluate to: one of the colour-triple entries, or a truthy value
inherited from Object.prototype (in which case the || fallback was
skipped). -/
inductive JsThemeValue
  | triple (tr : ThemeTriple)
  | protoFn
  deriving DecidableEq

/-- The expression themes[theme] || themes.dark (app.js line 249):
bracket access finds an own entry first, then walks the prototype
chain, where the names of protoNames hit truthy inherited values; only
when both miss is the access undefined, which is falsy, so only then
does the || produce the dark entry. -/
def selectedTheme (name : String) : JsThemeValue :=
  match themeTriples.lookup name with
  | some tr => JsThemeValue.triple tr
  | none =>
    if name ∈ protoNames then JsThemeValue.protoFn
    else JsThemeValue.triple { background := "#1f2937", foreground := "#f9fafb", cursor := "#3b82f6" }

/-- Reading selectedTheme.background in JavaScript: a string on a
triple entry, undefined on an inherited function, which has no colour
properties anywhere on its prototype chain. -/
def JsThemeValue.backgroundOf : JsThemeValue → Option String
  | JsThemeValue.triple tr => some tr.background
  | JsThemeValue.protoFn => none

/-- Reading selectedTheme.foreground in JavaScript. -/
def JsThemeValue.foregroundOf : JsThemeValue → Option String
  | JsThemeValue.triple tr => some tr.foreground
  | JsThemeValue.protoFn => none

/-- Reading selectedTheme.cursor in JavaScript. -/
def JsThemeValue.cursorOf : JsThemeValue → Option String
  | JsThemeValue.triple tr => some tr.cursor
  | JsThemeValue.protoFn => none

/-- updateTerminalTheme (app.js lines 223-257): returns early when no
terminal exists; otherwise evaluates themes[theme] || themes.dark with
the JavaScript bracket-access semantics above and spreads the three
property reads of the selected value over the existing theme object,
overriding exactly background, foreground and cursor (with undefined
when the selected value is an inherited non-entry). -/
def updateTerminalTheme (term : Option TermTheme) (name : String) : Option TermTheme :=
  match term with
  | none => none
  | some t =>
    let sel := selectedTheme name
    some { t with background := sel.backgroundOf,
                  foreground := sel.foregroundOf,
                  cursor := sel.cursorOf }

/-- The outcome of the startup sequence. -/
structure InitResult where
  shellInfo : ShellInfo
  termOptions : TerminalOptions
  st : St
  outs : List Out
  deriving DecidableEq

/-- init (app.js lines 12-19): awaits fetchShellInfo, configures the
terminal widget, opens the websocket, registers the listeners
(modelled by the step function), applies the saved theme name from
local storage (default dark) through setupThemeController, and renders
the status badge. -/
def init (fetchResult : Except String ShellInfo) (savedTheme : Option String) : InitResult :=
  let si := fetchShellInfo fetchResult
  let topts := setupTerminal
  let r := connectWebSocket initialSt
  let themeName := savedTheme.getD "dark"
  let themed := { topts with
    theme := (updateTerminalTheme (some topts.theme) themeName).getD topts.theme }
  { shellInfo := si, termOptions := themed, st := updateConnectionStatus r.1, outs := r.2 }

/-- State of the part_000 variant of the class: it tracks no connected
flag, no badge and no reconnect dialog; only the websocket assignment
exists. -/
structure AltSt where
  websocket : Option ReadyState
  deriving DecidableEq

/-- websocket.onclose of the part_000 variant (lines 87-93): prints a
notice, logs, and schedules an automatic connectWebSocket call 3000
milliseconds later; no state is marked closed, no status indicator
exists, and no dialog is shown. -/
def altOnWsClose (s : AltSt) : AltSt × List Out :=
  ({ s with websocket := some ReadyState.CLOSED },
   [Out.writeln "\r\n\nConnection closed. Attempting to reconnect...",
    Out.logConsole "WebSocket closed",
    Out.scheduleReconnect 3000])

/-- A state whose websocket is assigned and OPEN, as after the open
event: used to instantiate the theorems below. -/
def openSt : St := { initialSt with websocket := some ReadyState.OPEN }

/-- The state reached from the initial page state by the open event:
websocket OPEN, connected, success badge. -/
def connectedSt : St :=
  { websocket := some ReadyState.OPEN, connected := true,
    badge := some BadgeState.success, reconnectHandlers := 0, modalOpen := false }

/-- A state holding a stale closed websocket object with the reconnect
dialog up, as after a close event. -/
def staleSt : St :=
  { websocket := some ReadyState.CLOSED, connected := false,
    badge := some BadgeState.error, reconnectHandlers := 1, modalOpen := true }

/-- The Ctrl plus c keyboard event. -/
def ctrlC : KeyEvent := { ctrlKey := true, key := "c" }

/-- The replace of a single line feed by carriage-return line-feed is
the pointwise expansion of each character: line feeds become the pair,
every other character is kept as it is, in order. -/
lemma replaceLF_eq_bind (l : List Char) :
    replaceLF l = l.flatMap (fun c => if c = '\n' then ['\r', '\n'] else [c]) := by
  induction l with
  | nil => rfl
  | cons c cs ih =>
    by_cases hc : c = '\n'
    · simp [replaceLF, hc, ih]
    · simp [replaceLF, hc, ih]

/-- A name outside the themes table keys is not found by lookup. -/
lemma lookup_none_of_not_known (name : String) (h : name ∉ knownThemeNames) :
    themeTriples.lookup name = none := by
  simp [knownThemeNames] at h
  obtain ⟨h1, h2, h3, h4⟩ := h
  have b1 : (name == "dark") = false := by simp [h1]
  have b2 : (name == "light") = false := by simp [h2]
  have b3 : (name == "cyberpunk") = false := by simp [h3]
  have b4 : (name == "synthwave") = false := by simp [h4]
  simp [themeTriples, List.lookup, b1, b2, b3, b4]

/-- None of the inherited Object.prototype property names is an own key
of the themes table. -/
lemma lookup_none_of_proto (name : String) (h : name ∈ protoNames) :
    themeTriples.lookup name = none := by
  simp [protoNames] at h
  rcases h with rfl | rfl | rfl | rfl | rfl | rfl | rfl | rfl | rfl | rfl | rfl | rfl
  all_goals decide

/-- Claim C1: every chunk received in onmessage is written to the
terminal with each line feed replaced by carriage-return line-feed and
every other character unchanged in its original order; a chunk already
holding a carriage-return line-feed pair is displayed with a doubled
carriage return. -/
theorem C1_message_normalization (s : St) (chunk : String) :
    (step s (Ev.wsMessage chunk)).2
      = [Out.write (String.mk (chunk.data.flatMap
          (fun c => if c = '\n' then ['\r', '\n'] else [c])))]
    ∧ replaceLFStr (String.mk ['\r', '\n']) = String.mk ['\r', '\r', '\n'] := by
  constructor
  · simp [step, onWsMessage, replaceLFStr, replaceLF_eq_bind]
  · decide

/-- Claim C2: a user input event sends on the transport only when the
websocket exists and is OPEN at that moment; otherwise the event
changes nothing and sends nothing, so no input is queued or
buffered. -/
theorem C2_input_only_when_open (s : St) (d : String) :
    (Out.send d ∈ (step s (Ev.userInput d)).2 → s.websocket = some ReadyState.OPEN)
    ∧ (s.websocket ≠ some ReadyState.OPEN → step s (Ev.userInput d) = (s, [])) := by
  constructor
  · intro hmem
    by_contra hne
    simp [step, onData, hne] at hmem
  · intro hne
    simp [step, onData, hne]

/-- Concrete instantiation of claim C2: with no websocket assigned the
input event is dropped with no state change, and in the OPEN state a
send occurs only because the state is OPEN. -/
theorem C2_input_only_when_open_witness :
    (initialSt.websocket ≠ some ReadyState.OPEN
      ∧ step initialSt (Ev.userInput "ls") = (initialSt, []))
    ∧ (Out.send "ls" ∈ (step openSt (Ev.userInput "ls")).2
      → openSt.websocket = some ReadyState.OPEN) :=
  ⟨⟨by decide, (C2_input_only_when_open initialSt "ls").2 (by decide)⟩,
   (C2_input_only_when_open openSt "ls").1⟩

/-- Claim C3 (amended): in the dialog variant of app.js, the close
event clears the connected flag, renders the disconnected badge,
attaches one reconnect listener and shows the modal, and no automatic
retry happens (no new socket, no scheduled reconnect); the part_000
variant instead schedules an automatic reconnect 3000 milliseconds
after the close. -/
theorem C3_close_behavior (s : St) :
    (step s Ev.wsClose).1.connected = false
    ∧ (step s Ev.wsClose).1.badge = some BadgeState.error
    ∧ (step s Ev.wsClose).1.modalOpen = true
    ∧ (step s Ev.wsClose).1.reconnectHandlers = 1
    ∧ Out.modalShow ∈ (step s Ev.wsClose).2
    ∧ Out.newWebSocket ∉ (step s Ev.wsClose).2
    ∧ (∀ ms, Out.scheduleReconnect ms ∉ (step s Ev.wsClose).2)
    ∧ Out.scheduleReconnect 3000 ∈ (altOnWsClose { websocket := s.websocket }).2 := by
  simp [step, onWsClose, updateConnectionStatus, showReconnectDialog, altOnWsClose]

/-- Claim C3 counterexample: in the unnamed part_000 variant of the
close handler, an automatic reconnect is scheduled 3000 milliseconds
later and no reconnect dialog and no status update happen at all,
contradicting the claim that the controller does not automatically
retry and presents a manual reconnect affordance. -/
theorem C3_close_counterexample :
    Out.scheduleReconnect 3000 ∈ (altOnWsClose { websocket := some ReadyState.OPEN }).2
    ∧ Out.modalShow ∉ (altOnWsClose { websocket := some ReadyState.OPEN }).2 := by
  decide

/-- Claim C4: when the shell-info fetch fails, init substitutes the
default bash description with argument -i, and the startup sequence
still completes: the widget is configured with the constructor options
of the source and the transport connection is opened. -/
theorem C4_fetch_fallback (e : String) (saved : Option String) :
    (init (Except.error e) saved).shellInfo.shell = "bash"
    ∧ (init (Except.error e) saved).shellInfo.args = ["-i"]
    ∧ (init (Except.error e) saved).termOptions.cols = 80
    ∧ (init (Except.error e) saved).termOptions.rows = 24
    ∧ (init (Except.error e) saved).termOptions.fontSize = 14
    ∧ (init (Except.error e) saved).st.websocket = some ReadyState.CONNECTING
    ∧ Out.newWebSocket ∈ (init (Except.error e) saved).outs := by
  simp [init, fetchShellInfo, setupTerminal, connectWebSocket,
    updateConnectionStatus, initialSt]

/-- Claim C5 (amended): updateTerminalTheme never throws, and for a
name that is neither an own key of the themes table nor an inherited
Object.prototype property name the dark default triple is applied; a
name found in the table applies the triple of that entry; a name
inherited from Object.prototype skips the || fallback and sets the
three colour fields to undefined. -/
theorem C5_theme_fallback (t : TermTheme) (name : String) :
    (name ∉ knownThemeNames → name ∉ protoNames →
      updateTerminalTheme (some t) name
        = some { t with background := some "#1f2937", foreground := some "#f9fafb",
                        cursor := some "#3b82f6" })
    ∧ (∀ tr, themeTriples.lookup name = some tr →
      updateTerminalTheme (some t) name
        = some { t with background := some tr.background,
                        foreground := some tr.foreground,
                        cursor := some tr.cursor })
    ∧ (name ∈ protoNames →
      updateTerminalTheme (some t) name
        = some { t with background := none, foreground := none, cursor := none }) := by
  refine ⟨?_, ?_, ?_⟩
  · intro h hp
    have hnone := lookup_none_of_not_known name h
    simp [updateTerminalTheme, selectedTheme, hnone, hp,
      JsThemeValue.backgroundOf, JsThemeValue.foregroundOf, JsThemeValue.cursorOf]
  · intro tr htr
    simp [updateTerminalTheme, selectedTheme, htr,
      JsThemeValue.backgroundOf, JsThemeValue.foregroundOf, JsThemeValue.cursorOf]
  · intro hp
    have hnone := lookup_none_of_proto name hp
    simp [updateTerminalTheme, selectedTheme, hnone, hp,
      JsThemeValue.backgroundOf, JsThemeValue.foregroundOf, JsThemeValue.cursorOf]

/-- Claim C5 counterexample: the theme name toString is not a known
theme name, yet selecting it does not apply the dark default triple:
the bracket access finds the inherited Object.prototype method, the ||
fallback is skipped, and the three colour fields become undefined. -/
theorem C5_proto_counterexample :
    "toString" ∉ knownThemeNames
    ∧ updateTerminalTheme (some initialTheme) "toString"
        ≠ some { initialTheme with background := some "#1f2937",
                                   foreground := some "#f9fafb",
                                   cursor := some "#3b82f6" }
    ∧ updateTerminalTheme (some initialTheme) "toString"
        = some { initialTheme with background := none, foreground := none,
                                   cursor := none } := by
  decide

/-- Concrete instantiation of claim C5: the name solarized, unknown
and not inherited, falls back to the dark triple; the known name light
applies the light triple; the inherited name valueOf yields the three
undefined colour fields. -/
theorem C5_theme_fallback_witness :
    (("solarized" ∉ knownThemeNames ∧ "solarized" ∉ protoNames)
      ∧ updateTerminalTheme (some initialTheme) "solarized"
        = some { initialTheme with background := some "#1f2937",
                                   foreground := some "#f9fafb",
                                   cursor := some "#3b82f6" })
    ∧ (themeTriples.lookup "light"
        = some { background := "#ffffff", foreground := "#111827", cursor := "#3b82f6" }
      ∧ updateTerminalTheme (some initialTheme) "light"
        = some { initialTheme with background := some "#ffffff",
                                   foreground := some "#111827",
                                   cursor := some "#3b82f6" })
    ∧ ("valueOf" ∈ protoNames
      ∧ updateTerminalTheme (some initialTheme) "valueOf"
        = some { initialTheme with background := none, foreground := none,
                                   cursor := none }) :=
  ⟨⟨⟨by decide, by decide⟩,
    (C5_theme_fallback initialTheme "solarized").1 (by decide) (by decide)⟩,
   ⟨by decide, (C5_theme_fallback initialTheme "light").2.1
     { background := "#ffffff", foreground := "#111827", cursor := "#3b82f6" } (by decide)⟩,
   ⟨by decide, (C5_theme_fallback initialTheme "valueOf").2.2 (by decide)⟩⟩

/-- Claim C6: the Ctrl plus c keydown always calls preventDefault; with
the websocket OPEN it additionally performs exactly one send of the
single interrupt byte 0x03, and otherwise it sends nothing and leaves
the state unchanged. -/
theorem C6_interrupt (s : St) (e : KeyEvent) (hc : e.ctrlKey = true) (hk : e.key = "c") :
    (s.websocket = some ReadyState.OPEN →
      step s (Ev.keydown e)
        = (s, [Out.preventDefault, Out.send (String.mk [interruptByte])]))
    ∧ (s.websocket ≠ some ReadyState.OPEN →
      step s (Ev.keydown e) = (s, [Out.preventDefault])) := by
  constructor
  · intro ho
    simp [step, onKeydown, hc, hk, sendKeyboardInterrupt, ho]
  · intro ho
    simp [step, onKeydown, hc, hk, sendKeyboardInterrupt, ho]

/-- Concrete instantiation of claim C6: in the OPEN state the Ctrl
plus c event is prevented and the single byte 0x03 is sent; with no
websocket it is prevented and nothing is sent. -/
theorem C6_interrupt_witness :
    step openSt (Ev.keydown ctrlC)
      = (openSt, [Out.preventDefault, Out.send (String.mk [interruptByte])])
    ∧ step initialSt (Ev.keydown ctrlC) = (initialSt, [Out.preventDefault]) :=
  ⟨(C6_interrupt openSt ctrlC rfl rfl).1 (by decide),
   (C6_interrupt initialSt ctrlC rfl rfl).2 (by decide)⟩

/-- Claim C7 (amended): the reconnect click closes the reconnect
dialog, not the transport: the stale websocket object is discarded
without a close call, and the transport-open step is the very
connectWebSocket routine that init uses, producing the same single
open effect. -/
theorem C7_reconnect_reopens (s : St) :
    (reconnectClickHandler s).1 = (connectWebSocket { s with modalOpen := false }).1
    ∧ Out.modalClose ∈ (reconnectClickHandler s).2
    ∧ Out.newWebSocket ∈ (reconnectClickHandler s).2
    ∧ Out.closeWs ∉ (reconnectClickHandler s).2
    ∧ (connectWebSocket s).2 = (init (Except.error "") none).outs := by
  refine ⟨rfl, ?_, ?_, ?_, rfl⟩ <;>
    simp [reconnectClickHandler, connectWebSocket]

/-- Claim C7 counterexample: with a stale closed websocket object still
assigned, the reconnect click emits no close call on the transport at
all, contradicting the claim that the reconnect operation first closes
any stale transport that still exists. -/
theorem C7_no_close_counterexample :
    staleSt.websocket = some ReadyState.CLOSED
    ∧ Out.closeWs ∉ (step staleSt Ev.reconnectClick).2 := by
  decide

/-- Claim C8 (amended): a transport error event is logged and written
to the display while every field of the session state, the status
indicator included, is left exactly as it was; the indicator reaches
the disconnected form only through the close event that follows a
failed or broken connection. -/
theorem C8_error_behavior (s : St) :
    (step s Ev.wsError).1 = s
    ∧ Out.logConsole "WebSocket error:" ∈ (step s Ev.wsError).2
    ∧ Out.writeln "\r\n\nConnection error occurred" ∈ (step s Ev.wsError).2
    ∧ (step (step s Ev.wsError).1 Ev.wsClose).1.badge = some BadgeState.error := by
  refine ⟨rfl, ?_, ?_, ?_⟩ <;>
    simp [step, onWsError, onWsClose, updateConnectionStatus, showReconnectDialog]

/-- Claim C8 counterexample: an error event arriving while the session
is connected leaves the badge in its success form, so the error event
does not set the visible status indicator to the disconnected state. -/
theorem C8_error_counterexample :
    connectedSt = (step initialSt Ev.wsOpen).1
    ∧ (step connectedSt Ev.wsError).1.badge = some BadgeState.success
    ∧ (step connectedSt Ev.wsError).1.badge ≠ some BadgeState.error := by
  decide

/-- Firing the attached reconnect listeners never changes how many
listeners are attached: the click listener itself only closes the
modal and reopens the transport. -/
lemma runHandlers_handlers (n : Nat) :
    ∀ s : St, (runHandlers n s).1.reconnectHandlers = s.reconnectHandlers := by
  induction n with
  | zero => intro s; rfl
  | succ k ih =>
    intro s
    simp [runHandlers, ih, reconnectClickHandler, connectWebSocket]

/-- Every single event preserves the bound of at most one attached
reconnect listener: the close handler resets the count to exactly one
by the clone-and-replace idiom, and no other handler touches the
button. -/
lemma step_handlers_le (s : St) (e : Ev) (h : s.reconnectHandlers ≤ 1) :
    (step s e).1.reconnectHandlers ≤ 1 := by
  cases e with
  | wsOpen => simpa [step, onWsOpen, updateConnectionStatus] using h
  | wsMessage chunk => simpa [step, onWsMessage] using h
  | wsClose => simp [step, onWsClose, updateConnectionStatus, showReconnectDialog]
  | wsError => simpa [step, onWsError] using h
  | userInput d =>
    by_cases ho : s.websocket = some ReadyState.OPEN
    · simpa [step, onData, ho] using h
    · simpa [step, onData, ho] using h
  | keydown e =>
    by_cases hk : e.ctrlKey ∧ e.key = "c"
    · by_cases ho : s.websocket = some ReadyState.OPEN
      · simpa [step, onKeydown, hk, sendKeyboardInterrupt, ho] using h
      · simpa [step, onKeydown, hk, sendKeyboardInterrupt, ho] using h
    · simpa [step, onKeydown, hk] using h
  | reconnectClick =>
    simpa [step, onReconnectClick, runHandlers_handlers] using h

/-- The listener-count bound is preserved along any event sequence. -/
lemma run_handlers_le (evs : List Ev) :
    ∀ s : St, s.reconnectHandlers ≤ 1 → (run s evs).reconnectHandlers ≤ 1 := by
  induction evs with
  | nil => intro s h; exact h
  | cons e rest ih => intro s h; exact ih _ (step_handlers_le s e h)

/-- Claim C9: from the initial page state, every event sequence leaves
at most one click listener attached to the reconnect button, and
whenever exactly one listener is attached a single click performs
exactly one reconnect attempt, that is one new websocket. -/
theorem C9_single_handler (evs : List Ev) :
    (run initialSt evs).reconnectHandlers ≤ 1
    ∧ ((run initialSt evs).reconnectHandlers = 1 →
      ((step (run initialSt evs) Ev.reconnectClick).2.count Out.newWebSocket) = 1) := by
  constructor
  · exact run_handlers_le evs initialSt (by decide)
  · intro h1
    simp [step, onReconnectClick, h1, runHandlers, reconnectClickHandler,
      connectWebSocket, List.count_cons]

/-- Concrete instantiation of claim C9: after one close event exactly
one listener is attached and a click performs one reconnect attempt. -/
theorem C9_single_handler_witness :
    (run initialSt [Ev.wsClose]).reconnectHandlers = 1
    ∧ ((step (run initialSt [Ev.wsClose]) Ev.reconnectClick).2.count Out.newWebSocket) = 1 :=
  ⟨by decide, (C9_single_handler [Ev.wsClose]).2 (by decide)⟩

/-- Claim C10: a theme change through updateTerminalTheme rewrites only
background, foreground and cursor; the selection colour and the
sixteen ANSI palette colours of the widget theme are untouched for
every name. -/
theorem C10_theme_frame (t : TermTheme) (name : String) :
    ∃ r, updateTerminalTheme (some t) name = some r
      ∧ r.selection = t.selection ∧ r.black = t.black ∧ r.red = t.red
      ∧ r.green = t.green ∧ r.yellow = t.yellow ∧ r.blue = t.blue
      ∧ r.magenta = t.magenta ∧ r.cyan = t.cyan ∧ r.white = t.white
      ∧ r.brightBlack = t.brightBlack ∧ r.brightRed = t.brightRed
      ∧ r.brightGreen = t.brightGreen ∧ r.brightYellow = t.brightYellow
      ∧ r.brightBlue = t.brightBlue ∧ r.brightMagenta = t.brightMagenta
      ∧ r.brightCyan = t.brightCyan ∧ r.brightWhite = t.brightWhite :=
  ⟨_, rfl, rfl, rfl, rfl, rfl, rfl, rfl, rfl, rfl, rfl, rfl, rfl, rfl, rfl,
   rfl, rfl, rfl, rfl⟩
